import Mathlib

/-!
Verification development for the sfdata_collector repository
(`sfdata_collector.py`, `SFparkDataModels.py`).

The Python 2 source is shallowly embedded: JSON leaf values are `String`s
(the SFpark API returns all scalar fields as strings), a missing JSON key is
`Option.none`, Python exceptions (KeyError / IndexError / ValueError from
`int()`, `float()`, `strptime`) are modelled by an `Option` result: `none`
means the cycle raised an uncaught exception, so nothing was committed.
Python's `float()` results are modelled exactly as the parsed decimal literal
(mantissa and number of fractional digits); the claims below depend only on
which components of a coordinate string are parsed and where they are stored,
never on binary-float rounding.  The `sets.Set` of stored location ids is
modelled as a `List Int` used only through membership and insertion.
-/

namespace SFData

/-- Whitespace stripping, as done by Python's `int()` / `float()` on strings. -/
def dropWS : List Char → List Char
  | [] => []
  | c :: r => if c.isWhitespace then dropWS r else c :: r

def trimWS (l : List Char) : List Char :=
  (dropWS (dropWS l).reverse).reverse

/-- Value of a list of decimal digit characters. -/
def digitsVal (l : List Char) : Nat :=
  l.foldl (fun a c => 10 * a + (c.toNat - 48)) 0

/-- `str.split(sep)` for a one-character separator, as in Python
(`"".split(',') == ['']`, empty fields kept). -/
def splitOnChar (c : Char) : List Char → List (List Char)
  | [] => [[]]
  | a :: r =>
    match splitOnChar c r with
    | [] => [[]]
    | g :: gs => if a = c then [] :: g :: gs else (a :: g) :: gs

/-- Python `int(s)` on a string: optional surrounding whitespace, optional
sign, at least one digit; anything else raises (→ `none`). -/
def pyIntCore (cs : List Char) : Option Int :=
  match cs with
  | '+' :: rest =>
    if !rest.isEmpty && rest.all Char.isDigit then some (digitsVal rest) else none
  | '-' :: rest =>
    if !rest.isEmpty && rest.all Char.isDigit then some (-(digitsVal rest : Int)) else none
  | _ =>
    if !cs.isEmpty && cs.all Char.isDigit then some ((digitsVal cs : Int)) else none

def pyInt (s : String) : Option Int := pyIntCore (trimWS s.toList)

/-- Exact value of a decimal literal accepted by Python's `float()`:
`mant / 10 ^ frac`.  Kept unevaluated so that all arithmetic stays in
`Int`/`Nat`. -/
structure PyFloat where
  mant : Int
  frac : Nat
deriving DecidableEq, Repr

/-- Python `float(s)` on a plain decimal literal: optional whitespace,
optional sign, digits with at most one decimal point, at least one digit. -/
def pyFloatCore (cs : List Char) : Option PyFloat :=
  let cs := trimWS cs
  let sb : Int × List Char :=
    match cs with
    | '-' :: r => (-1, r)
    | '+' :: r => (1, r)
    | _ => (1, cs)
  match splitOnChar '.' sb.2 with
  | [ip] =>
    if !ip.isEmpty && ip.all Char.isDigit then
      some ⟨sb.1 * (digitsVal ip : Int), 0⟩
    else none
  | [ip, fp] =>
    if (!ip.isEmpty || !fp.isEmpty) && ip.all Char.isDigit && fp.all Char.isDigit then
      some ⟨sb.1 * ((digitsVal ip : Int) * (10 : Int) ^ fp.length + (digitsVal fp : Int)), fp.length⟩
    else none
  | _ => none

def pyFloat (s : String) : Option PyFloat := pyFloatCore s.toList

/-- A field matched by a numeric `strptime` directive: non-empty, all digits,
bounded width. -/
def parseNatField (cs : List Char) (maxLen : Nat) : Option Nat :=
  if !cs.isEmpty && cs.length ≤ maxLen && cs.all Char.isDigit then
    some (digitsVal cs)
  else none

def isLeap (y : Nat) : Bool :=
  (y % 4 == 0 && y % 100 != 0) || y % 400 == 0

def daysInMonth (y m : Nat) : Nat :=
  if m = 2 then (if isLeap y then 29 else 28)
  else if m = 4 ∨ m = 6 ∨ m = 9 ∨ m = 11 then 30
  else 31

/-- Result of `datetime.datetime.strptime` (only the fields the collector
uses). -/
structure PyDateTime where
  year : Nat
  month : Nat
  day : Nat
  hour : Nat
  minute : Nat
  second : Nat
deriving DecidableEq, Repr

/-- `datetime.datetime.strptime(s, "%Y-%m-%dT%H:%M:%S")`: `%Y` is exactly
four digits, the other directives are one or two digits with the usual range
checks, and the `datetime` constructor validates the day against the month
length and the year against `MINYEAR = 1`. -/
def strptimeISO (cs : List Char) : Option PyDateTime :=
  match splitOnChar 'T' cs with
  | [ds, ts] =>
    match splitOnChar '-' ds, splitOnChar ':' ts with
    | [ys, ms, dds], [hs, mis, ss] =>
      match parseNatField ys 4, parseNatField ms 2, parseNatField dds 2,
            parseNatField hs 2, parseNatField mis 2, parseNatField ss 2 with
      | some y, some mo, some d, some h, some mi, some sec =>
        if ys.length = 4 ∧ 1 ≤ y ∧ 1 ≤ mo ∧ mo ≤ 12 ∧ 1 ≤ d ∧ d ≤ daysInMonth y mo
            ∧ h ≤ 23 ∧ mi ≤ 59 ∧ sec ≤ 59 then
          some ⟨y, mo, d, h, mi, sec⟩
        else none
      | _, _, _, _, _, _ => none
    | _, _ => none
  | _ => none

/-- Lines 91–92 of `sfdata_collector.py`:
`string_time = data[...].split('.')` followed by
`strptime(string_time[0], "%Y-%m-%dT%H:%M:%S")` — any sub-second fraction is
truncated at the first `'.'`. -/
def string_to_datetime (s : String) : Option PyDateTime :=
  strptimeISO ((splitOnChar '.' s.toList).headD [])

/-- Line 93 of `sfdata_collector.py`:
`date_id = 10000*year + 100*month + day`. -/
def dateIdOf (t : PyDateTime) : Int :=
  10000 * (t.year : Int) + 100 * (t.month : Int) + (t.day : Int)

/-- `datetime.datetime.strptime(s, "%I:%M %p").time()`: a 12-hour
clock-with-meridiem time, returned as (hour in 0..23, minute). -/
def parseTime12 (s : String) : Option (Nat × Nat) :=
  match splitOnChar ' ' s.toList with
  | [hm, mer] =>
    match splitOnChar ':' hm with
    | [hs, ms] =>
      match parseNatField hs 2, parseNatField ms 2 with
      | some h, some m =>
        if 1 ≤ h ∧ h ≤ 12 ∧ m ≤ 59 then
          if mer.map Char.toUpper = ['A', 'M'] then some (h % 12, m)
          else if mer.map Char.toUpper = ['P', 'M'] then some (h % 12 + 12, m)
          else none
        else none
      | _, _ => none
    | _ => none
  | _ => none

/-- One entry of a `RATES.RS` / `OPHRS.OPS` sub-document for rates
(`SFparkDataModels.py`, `SFparkRatesRecord.__init__`). -/
structure RateJson where
  BEG : Option String
  END : Option String
  RATE : Option String
  DESC : Option String
  RQ : Option String
  RR : Option String
deriving DecidableEq, Repr

/-- One entry of an `OPHRS.OPS` sub-document
(`SFparkDataModels.py`, `SFparkOphrsRecord.__init__`). -/
structure OphrsJson where
  FROM : Option String
  TO : Option String
  BEG : Option String
  END : Option String
deriving DecidableEq, Repr

/-- Shape of the value found under `avl["RATES"]["RS"]` /
`avl["OPHRS"]["OPS"]`: the collector only iterates it when
`isinstance(.., list)` holds, so a non-list value is kept abstract. -/
inductive RSShape (α : Type) where
  | isList : List α → RSShape α
  | notList : RSShape α
deriving DecidableEq, Repr

/-- One entry of the `AVL` array of the availability-service response.
`RATES`/`OPHRS` being `some` means the key is present with its `RS`/`OPS`
sub-field (the source reads `avl["RATES"]["RS"]` directly). -/
structure AvlJson where
  TYPE : Option String
  NAME : Option String
  DESC : Option String
  INTER : Option String
  TEL : Option String
  OSPID : Option String
  BFID : Option String
  PTS : Option String
  LOC : Option String
  OCC : Option String
  OPER : Option String
  RATES : Option (RSShape RateJson)
  OPHRS : Option (RSShape OphrsJson)
deriving DecidableEq, Repr

/-- The entries the collector's rates loop visits: the `RS` list when
`"RATES" in avl` and the value is literally a list, otherwise nothing. -/
def ratesEntries (avl : AvlJson) : List RateJson :=
  match avl.RATES with
  | some (.isList l) => l
  | _ => []

/-- The entries the collector's operating-hours loop visits. -/
def ophrsEntries (avl : AvlJson) : List OphrsJson :=
  match avl.OPHRS with
  | some (.isList l) => l
  | _ => []

/-- Top level of the availability-service response document. -/
structure Doc where
  STATUS : String
  ERROR_CODE : Option String
  MESSAGE : Option String
  AVAILABILITY_UPDATED_TIMESTAMP : Option String
  AVL : Option (List AvlJson)
deriving DecidableEq, Repr

/-- Parsing of an optional field: absent ⇒ the attribute is left unset,
present but unparseable ⇒ the constructor raises. -/
def optParse {α : Type} (f : String → Option α) : Option String → Option (Option α)
  | none => some none
  | some s => (f s).map some

/-- Row of `sfpark_loc` as built by `SFparkLocationRecord.__init__`. -/
structure SFparkLocationRecord where
  id : Int
  parktype : Option String
  name : Option String
  descr : Option String
  inter : Option String
  tel : Option String
  ospid : Option Int
  bfid : Option Int
  pts : Option Int
  lat1 : Option PyFloat
  lon1 : Option PyFloat
  lat2 : Option PyFloat
  lon2 : Option PyFloat
deriving DecidableEq, Repr

/-- `SFparkLocationRecord.__init__(loc_id, json)`
(`SFparkDataModels.py` lines 108–139).  `none` models an uncaught
`ValueError`/`IndexError` escaping the constructor. -/
def locationInit (loc_id : Int) (json : AvlJson) : Option SFparkLocationRecord :=
  match optParse pyInt json.OSPID with
  | none => none
  | some ospid =>
  match optParse pyInt json.BFID with
  | none => none
  | some bfid =>
  match optParse pyInt json.PTS with
  | none => none
  | some pts =>
  let base : SFparkLocationRecord :=
    { id := loc_id, parktype := json.TYPE, name := json.NAME, descr := json.DESC
      inter := json.INTER, tel := json.TEL, ospid := ospid, bfid := bfid, pts := pts
      lat1 := none, lon1 := none, lat2 := none, lon2 := none }
  match json.LOC with
  | none => some base
  | some locStr =>
    let loc := splitOnChar ',' locStr.toList
    if pts = some 1 then
      match (loc.get? 1).bind pyFloatCore, (loc.get? 0).bind pyFloatCore with
      | some lat1, some lon1 => some { base with lat1 := some lat1, lon1 := some lon1 }
      | _, _ => none
    else if pts = some 2 then
      match (loc.get? 1).bind pyFloatCore, (loc.get? 0).bind pyFloatCore,
            (loc.get? 3).bind pyFloatCore, (loc.get? 2).bind pyFloatCore with
      | some lat1, some lon1, some lat2, some lon2 =>
        some { base with lat1 := some lat1, lon1 := some lon1
                         lat2 := some lat2, lon2 := some lon2 }
      | _, _, _, _ => none
    else some base

/-- Row of `sfpark_rates` as built by `SFparkRatesRecord.__init__`. -/
structure SFparkRatesRecord where
  loc_id : Int
  date_id : Int
  beg : Option (Nat × Nat)
  endt : Option (Nat × Nat)
  rate : Option PyFloat
  descr : Option String
  rq : Option String
  rr : Option String
deriving DecidableEq, Repr

/-- `SFparkRatesRecord.__init__(loc_id, date_id, json)`
(`SFparkDataModels.py` lines 256–280); the `end` column is named `endt` here
because `end` is reserved. -/
def ratesInit (loc_id date_id : Int) (json : RateJson) : Option SFparkRatesRecord :=
  match optParse parseTime12 json.BEG with
  | none => none
  | some beg =>
  match optParse parseTime12 json.END with
  | none => none
  | some endt =>
  match optParse pyFloat json.RATE with
  | none => none
  | some rate =>
    some { loc_id := loc_id, date_id := date_id, beg := beg, endt := endt
           rate := rate, descr := json.DESC, rq := json.RQ, rr := json.RR }

/-- Row of `sfpark_ophrs` as built by `SFparkOphrsRecord.__init__`. -/
structure SFparkOphrsRecord where
  loc_id : Int
  date_id : Int
  from_day : Option String
  to_day : Option String
  beg : Option (Nat × Nat)
  endt : Option (Nat × Nat)
deriving DecidableEq, Repr

/-- `SFparkOphrsRecord.__init__(loc_id, date_id, json)`
(`SFparkDataModels.py` lines 327–352). -/
def ophrsInit (loc_id date_id : Int) (json : OphrsJson) : Option SFparkOphrsRecord :=
  match optParse parseTime12 json.BEG with
  | none => none
  | some beg =>
  match optParse parseTime12 json.END with
  | none => none
  | some endt =>
    some { loc_id := loc_id, date_id := date_id, from_day := json.FROM
           to_day := json.TO, beg := beg, endt := endt }

/-- Row of `sfpark_avl` as built by `SFparkAvailabilityRecord.__init__`. -/
structure SFparkAvailabilityRecord where
  loc_id : Int
  date_id : Int
  availability_updated_timestamp : PyDateTime
  occ : Option Int
  oper : Option Int
deriving DecidableEq, Repr

/-- `SFparkAvailabilityRecord.__init__(loc_id, date_id, updated_time, json)`
(`SFparkDataModels.py` lines 181–201). -/
def availInit (loc_id date_id : Int) (updated_time : PyDateTime) (json : AvlJson) :
    Option SFparkAvailabilityRecord :=
  match optParse pyInt json.OCC with
  | none => none
  | some occ =>
  match optParse pyInt json.OPER with
  | none => none
  | some oper =>
    some { loc_id := loc_id, date_id := date_id
           availability_updated_timestamp := updated_time, occ := occ, oper := oper }

/-- Lines 102–105 / 130–133 of `sfdata_collector.py`: the derived location
id, `int(avl["OSPID"])` when `avl["TYPE"] == "OFF"`, else
`int(avl["BFID"])`; a missing key or unparseable value raises. -/
def locIdOf (avl : AvlJson) : Option Int :=
  match avl.TYPE with
  | none => none
  | some t =>
    if t = "OFF" then
      match avl.OSPID with
      | none => none
      | some s => pyInt s
    else
      match avl.BFID with
      | none => none
      | some s => pyInt s

/-- The module-level tracker globals of `sfdata_collector.py` lines 52–53:
`storedLocations = Set()` (modelled as a list used through membership) and
`lastDate = 0`. -/
structure CollectorState where
  storedLocations : List Int
  lastDate : Int
deriving DecidableEq, Repr

/-- What one run of the dimension loop (lines 99–124) accumulates. -/
structure DimOut where
  known : List Int
  locs : List SFparkLocationRecord
  rates : List SFparkRatesRecord
  ophrs : List SFparkOphrsRecord
deriving DecidableEq, Repr

/-- Left-to-right traversal that stops at the first exception, as a Python
`for` loop over fallible constructors does. -/
def mapOpt {α β : Type} (f : α → Option β) : List α → Option (List β)
  | [] => some []
  | a :: l =>
    match f a with
    | none => none
    | some b =>
      match mapOpt f l with
      | none => none
      | some bs => some (b :: bs)

/-- Lines 99–124 of `sfdata_collector.py`: per `AVL` entry, derive the id;
add a Location record only when the id is unseen (recording the id); then one
Rates record per entry of a list-shaped `RATES.RS` and one Ophrs record per
entry of a list-shaped `OPHRS.OPS`, whether or not the location was new.  Any
exception aborts the whole cycle (`none`). -/
def stageDimLoop (d : Int) : List Int → List AvlJson → Option DimOut
  | known, [] => some ⟨known, [], [], []⟩
  | known, avl :: rest =>
    match locIdOf avl with
    | none => none
    | some i =>
      let step : Option (List Int × List SFparkLocationRecord) :=
        if i ∈ known then some (known, [])
        else (locationInit i avl).map (fun r => (i :: known, [r]))
      match step with
      | none => none
      | some (known₁, locs₁) =>
        match mapOpt (ratesInit i d) (ratesEntries avl) with
        | none => none
        | some rates₁ =>
          match mapOpt (ophrsInit i d) (ophrsEntries avl) with
          | none => none
          | some ophrs₁ =>
            match stageDimLoop d known₁ rest with
            | none => none
            | some out =>
              some ⟨out.known, locs₁ ++ out.locs, rates₁ ++ out.rates, ophrs₁ ++ out.ophrs⟩

/-- Lines 128–136 of `sfdata_collector.py`: one Availability record per `AVL`
entry, every cycle. -/
def stageAvailLoop (d : Int) (t : PyDateTime) : List AvlJson → Option (List SFparkAvailabilityRecord)
  | [] => some []
  | avl :: rest =>
    match locIdOf avl with
    | none => none
    | some i =>
      match availInit i d t avl with
      | none => none
      | some r =>
        match stageAvailLoop d t rest with
        | none => none
        | some rs => some (r :: rs)

/-- Everything `session.add` received during one committed cycle. -/
structure Staged where
  locations : List SFparkLocationRecord
  rates : List SFparkRatesRecord
  ophrs : List SFparkOphrsRecord
  avail : List SFparkAvailabilityRecord
deriving DecidableEq, Repr

/-- Outcome of one committed cycle: tracker state after the cycle, staged
records, and what was printed. -/
structure CycleResult where
  state : CollectorState
  staged : Staged
  log : List String
deriving DecidableEq, Repr

/-- `collectSFparkData(session)` (`sfdata_collector.py` lines 64–142) applied
to an already-fetched response document.  `none` models an uncaught exception
escaping the call, in which case `session.commit()` never runs and the
process dies, so nothing of the cycle is observable. -/
def collectSFparkData (st : CollectorState) (data : Doc) : Option CycleResult :=
  if data.STATUS = "SUCCESS" then
    match data.AVAILABILITY_UPDATED_TIMESTAMP with
    | none => none
    | some ts =>
      match string_to_datetime ts with
      | none => none
      | some updated_time =>
        let date_id := dateIdOf updated_time
        match data.AVL with
        | none => none
        | some avls =>
          let dim : Option (CollectorState × List SFparkLocationRecord ×
              List SFparkRatesRecord × List SFparkOphrsRecord) :=
            if date_id ≠ st.lastDate then
              (stageDimLoop date_id st.storedLocations avls).map
                (fun out => (⟨out.known, date_id⟩, out.locs, out.rates, out.ophrs))
            else some (st, [], [], [])
          match dim with
          | none => none
          | some (st', locs, rates, ophrs) =>
            match stageAvailLoop date_id updated_time avls with
            | none => none
            | some avail => some ⟨st', ⟨locs, rates, ophrs, avail⟩, []⟩
  else
    match data.ERROR_CODE, data.MESSAGE with
    | some ec, some m => some ⟨st, ⟨[], [], [], []⟩, [ec ++ " " ++ m]⟩
    | _, _ => none

/-- Reference function written from the spec's cadence-gate wording: the ids
staged as new Location rows — a candidate id is kept iff it is not already
known, and it is added to the known set as soon as it is kept. -/
def newIds : List Int → List Int → List Int
  | _, [] => []
  | known, i :: rest =>
    if i ∈ known then newIds known rest else i :: newIds (i :: known) rest

/-- Observable outcome of the argument check in the `__main__` block. -/
inductive MainStart where
  | usageExit (code : Int)
  | indexError
  | proceed (dbstring : String)
deriving DecidableEq, Repr

/-- Lines 156–160 of `sfdata_collector.py`: `if len(sys.argv) < 1: print
USAGE; sys.exit(2)`, then `dbstring = sys.argv[1]` (an out-of-range index
raises an uncaught `IndexError`). -/
def mainStart (argv : List String) : MainStart :=
  if argv.length < 1 then .usageExit 2
  else
    match argv.get? 1 with
    | none => .indexError
    | some db => .proceed db

/-- Sample rate entry with well-formed 12-hour times. -/
def rate1 : RateJson :=
  { BEG := some "8:00 AM", END := some "6:00 PM", RATE := some "3.5",
    DESC := none, RQ := some "PerHr", RR := none }

/-- Sample operating-hours entry with well-formed 12-hour times. -/
def op1 : OphrsJson :=
  { FROM := some "Monday", TO := some "Friday",
    BEG := some "7:00 AM", END := some "10:00 PM" }

/-- Sample off-street `AVL` entry (as in the API reference): one point pair,
one rate schedule, one operating-hours schedule. -/
def avl1 : AvlJson :=
  { TYPE := some "OFF", NAME := some "Lot A", DESC := some "123 Main St", INTER := none,
    TEL := none, OSPID := some "930", BFID := none, PTS := some "1",
    LOC := some "-122.4,37.7", OCC := some "3", OPER := some "10",
    RATES := some (.isList [rate1]),
    OPHRS := some (.isList [op1]) }

/-- Sample on-street `AVL` entry: two point pairs, a non-list `OPHRS.OPS`. -/
def avl2 : AvlJson :=
  { TYPE := some "ON", NAME := some "Mission St", DESC := none, INTER := none,
    TEL := none, OSPID := none, BFID := some "20000", PTS := some "2",
    LOC := some "-122.4,37.7,-122.5,37.8", OCC := some "5", OPER := some "8",
    RATES := none, OPHRS := some .notList }

/-- A well-formed success response carrying both sample entries and a
fractional-second timestamp. -/
def docOk : Doc :=
  { STATUS := "SUCCESS", ERROR_CODE := none, MESSAGE := none,
    AVAILABILITY_UPDATED_TIMESTAMP := some "2013-07-04T10:00:00.52",
    AVL := some [avl1, avl2] }

/-- The datetime carried by `docOk`'s timestamp. -/
def ut0 : PyDateTime := ⟨2013, 7, 4, 10, 0, 0⟩

/-- Fresh tracker state, as at process start. -/
def st0 : CollectorState := ⟨[], 0⟩

/-- Tracker state already in `docOk`'s date bucket. -/
def stSame : CollectorState := ⟨[], 20130704⟩

/-- Result of the first cycle on `docOk` from a fresh tracker. -/
def cyc1 : CycleResult :=
  (collectSFparkData st0 docOk).getD ⟨st0, ⟨[], [], [], []⟩, []⟩

/-- Result of a second, identical cycle right after `cyc1`. -/
def cyc2 : CycleResult :=
  (collectSFparkData cyc1.state docOk).getD ⟨cyc1.state, ⟨[], [], [], []⟩, []⟩

/-- Result of a cycle on `docOk` from a tracker already in its bucket. -/
def cycSame : CycleResult :=
  (collectSFparkData stSame docOk).getD ⟨stSame, ⟨[], [], [], []⟩, []⟩

/-- A non-success response from the provider. -/
def docErr : Doc :=
  { STATUS := "ERROR", ERROR_CODE := some "AUTH01", MESSAGE := some "bad api key",
    AVAILABILITY_UPDATED_TIMESTAMP := none, AVL := none }

/-- A success response whose single location carries two rate entries, the
first with a malformed begin time, the second well-formed. -/
def docBadTime : Doc :=
  { STATUS := "SUCCESS", ERROR_CODE := none, MESSAGE := none,
    AVAILABILITY_UPDATED_TIMESTAMP := some "2013-07-04T10:00:00",
    AVL := some [{ TYPE := some "OFF", NAME := some "Lot B", DESC := none, INTER := none,
                   TEL := none, OSPID := some "931", BFID := none, PTS := none,
                   LOC := none, OCC := some "1", OPER := some "2",
                   RATES := some (.isList
                     [{ BEG := some "25:99 XM", END := none, RATE := none,
                        DESC := none, RQ := none, RR := none },
                      { BEG := some "8:00 AM", END := some "6:00 PM", RATE := some "3.5",
                        DESC := none, RQ := some "PerHr", RR := none }]),
                   OPHRS := none }] }

/-- The location record built from the sample on-street entry. -/
def loc2 : SFparkLocationRecord :=
  (locationInit 20000 avl2).getD
    ⟨0, none, none, none, none, none, none, none, none, none, none, none, none⟩

/-- An optional field either is absent or holds a value its parser accepts
(i.e. reading it cannot raise). -/
def okParse {α : Type} (f : String → Option α) (o : Option String) : Prop :=
  ∀ v, o = some v → (f v).isSome

theorem mapOpt_length {α β : Type} (f : α → Option β) :
    ∀ (l : List α) (out : List β), mapOpt f l = some out → out.length = l.length := by
  intro l
  induction l with
  | nil => intro out h; simp [mapOpt] at h; simp [← h]
  | cons a l ih =>
    intro out h
    simp only [mapOpt] at h
    cases hfa : f a with
    | none => rw [hfa] at h; exact absurd h (by simp)
    | some b =>
      rw [hfa] at h
      cases hml : mapOpt f l with
      | none => rw [hml] at h; exact absurd h (by simp)
      | some bs =>
        rw [hml] at h
        simp only [Option.some.injEq] at h
        subst h
        simp [ih bs hml]

theorem mapOpt_isSome_of_mem {α β : Type} (f : α → Option β) :
    ∀ (l : List α) (out : List β), mapOpt f l = some out → ∀ a ∈ l, (f a).isSome := by
  intro l
  induction l with
  | nil => intro out _ a ha; exact absurd ha (by simp)
  | cons x l ih =>
    intro out h a ha
    simp only [mapOpt] at h
    cases hfx : f x with
    | none => rw [hfx] at h; exact absurd h (by simp)
    | some b =>
      rw [hfx] at h
      cases hml : mapOpt f l with
      | none => rw [hml] at h; exact absurd h (by simp)
      | some bs =>
        rcases List.mem_cons.mp ha with rfl | hmem
        · simp [hfx]
        · exact ih bs hml a hmem

theorem locationInit_id (i : Int) (json : AvlJson) (r : SFparkLocationRecord)
    (h : locationInit i json = some r) : r.id = i := by
  simp only [locationInit] at h
  repeat' split at h
  all_goals first
    | (injection h with h2; subst h2; rfl)
    | simp at h

theorem newIds_not_mem (known ids : List Int) :
    ∀ i ∈ newIds known ids, i ∉ known := by
  induction ids generalizing known with
  | nil => simp [newIds]
  | cons j rest ih =>
    intro i hi
    simp only [newIds] at hi
    by_cases hj : j ∈ known
    · rw [if_pos hj] at hi; exact ih known i hi
    · rw [if_neg hj] at hi
      rcases List.mem_cons.mp hi with rfl | hmem
      · exact hj
      · have := ih (j :: known) i hmem
        intro hk
        exact this (List.mem_cons_of_mem _ hk)

theorem newIds_nodup (known ids : List Int) : (newIds known ids).Nodup := by
  induction ids generalizing known with
  | nil => simp [newIds]
  | cons j rest ih =>
    simp only [newIds]
    by_cases hj : j ∈ known
    · rw [if_pos hj]; exact ih known
    · rw [if_neg hj]
      refine List.nodup_cons.mpr ⟨?_, ih (j :: known)⟩
      intro hmem
      exact newIds_not_mem (j :: known) rest j hmem (List.mem_cons_self j known)

theorem stageAvailLoop_length (d : Int) (t : PyDateTime) :
    ∀ (avls : List AvlJson) (out : List SFparkAvailabilityRecord),
      stageAvailLoop d t avls = some out → out.length = avls.length := by
  intro avls
  induction avls with
  | nil => intro out h; simp [stageAvailLoop] at h; simp [← h]
  | cons avl rest ih =>
    intro out h
    simp only [stageAvailLoop] at h
    split at h
    · exact absurd h (by simp)
    split at h
    · exact absurd h (by simp)
    rename_i r hr
    split at h
    · exact absurd h (by simp)
    rename_i rs hrs
    injection h with h2
    subst h2
    simp [ih rs hrs]

theorem stageDimLoop_spec (d : Int) :
    ∀ (avls : List AvlJson) (known : List Int) (out : DimOut),
      stageDimLoop d known avls = some out →
      ∃ ids, mapOpt locIdOf avls = some ids ∧
        out.locs.map (fun r => r.id) = newIds known ids ∧
        out.rates.length = (avls.map (fun a => (ratesEntries a).length)).sum ∧
        out.ophrs.length = (avls.map (fun a => (ophrsEntries a).length)).sum := by
  intro avls
  induction avls with
  | nil =>
    intro known out h
    simp only [stageDimLoop] at h
    injection h with h2
    subst h2
    exact ⟨[], by simp [mapOpt], by simp [newIds], by simp, by simp⟩
  | cons avl rest ih =>
    intro known out h
    simp only [stageDimLoop] at h
    split at h
    · exact absurd h (by simp)
    rename_i i hi
    split at h
    · exact absurd h (by simp)
    rename_i p known₁ locs₁ hstep
    split at h
    · exact absurd h (by simp)
    rename_i rates₁ hrts
    split at h
    · exact absurd h (by simp)
    rename_i ophrs₁ hops
    split at h
    · exact absurd h (by simp)
    rename_i out' hrest
    injection h with h2
    subst h2
    have hstepcases :
        (i ∈ known ∧ known₁ = known ∧ locs₁ = []) ∨
          (i ∉ known ∧ known₁ = i :: known ∧
            ∃ r, locationInit i avl = some r ∧ locs₁ = [r]) := by
      by_cases hmem : i ∈ known
      · rw [if_pos hmem] at hstep
        injection hstep with hstep
        exact Or.inl ⟨hmem, congrArg Prod.fst hstep.symm, congrArg Prod.snd hstep.symm⟩
      · rw [if_neg hmem] at hstep
        cases hr : locationInit i avl with
        | none => rw [hr] at hstep; exact absurd hstep (by simp)
        | some r =>
          rw [hr] at hstep
          simp only [Option.map_some', Option.some.injEq, Prod.mk.injEq] at hstep
          exact Or.inr ⟨hmem, hstep.1.symm, r, rfl, hstep.2.symm⟩
    obtain ⟨ids', hids', hlocs', hrates', hophrs'⟩ := ih known₁ out' hrest
    refine ⟨i :: ids', by simp [mapOpt, hi, hids'], ?_, ?_, ?_⟩
    · rcases hstepcases with ⟨hmem, rfl, rfl⟩ | ⟨hmem, hk, r, hr, rfl⟩
      · simpa [newIds, hmem] using hlocs'
      · subst hk
        have hrid := locationInit_id i avl r hr
        simp [newIds, hmem, hrid, hlocs']
    · simp [mapOpt_length _ _ _ hrts, hrates']
    · simp [mapOpt_length _ _ _ hops, hophrs']

theorem collect_success_cases
    (st : CollectorState) (data : Doc) (ts : String) (ut : PyDateTime)
    (avls : List AvlJson) (res : CycleResult)
    (hc : collectSFparkData st data = some res)
    (hs : data.STATUS = "SUCCESS")
    (hts : data.AVAILABILITY_UPDATED_TIMESTAMP = some ts)
    (hut : string_to_datetime ts = some ut)
    (havl : data.AVL = some avls) :
    (dateIdOf ut = st.lastDate ∧
      ∃ avail, stageAvailLoop (dateIdOf ut) ut avls = some avail ∧
        res = ⟨st, ⟨[], [], [], avail⟩, []⟩) ∨
    (dateIdOf ut ≠ st.lastDate ∧
      ∃ out avail, stageDimLoop (dateIdOf ut) st.storedLocations avls = some out ∧
        stageAvailLoop (dateIdOf ut) ut avls = some avail ∧
        res = ⟨⟨out.known, dateIdOf ut⟩, ⟨out.locs, out.rates, out.ophrs, avail⟩, []⟩) := by
  by_cases hd : dateIdOf ut = st.lastDate
  · left
    refine ⟨hd, ?_⟩
    simp only [collectSFparkData, hs, hts, hut, havl, hd, if_pos, ite_not, if_true] at hc
    split at hc
    · exact absurd hc (by simp)
    rename_i avail havail
    injection hc with h2
    rw [← hd] at havail
    exact ⟨avail, havail, h2.symm⟩
  · right
    refine ⟨hd, ?_⟩
    simp only [collectSFparkData, hs, hts, hut, havl, if_pos] at hc
    rw [if_pos hd] at hc
    split at hc
    · exact absurd hc (by simp)
    rename_i st' locs rates ophrs hdim
    rw [Option.map_eq_some'] at hdim
    obtain ⟨out, hout, hf⟩ := hdim
    split at hc
    · exact absurd hc (by simp)
    rename_i avail havail
    injection hc with h2
    refine ⟨out, avail, hout, havail, ?_⟩
    rw [← h2]
    injection hf with hf1 hf2
    rw [← hf1]
    injection hf2 with hf2 hf3
    injection hf3 with hf3 hf4
    rw [← hf2, ← hf3, ← hf4]

theorem ratesInit_times (i d : Int) (j : RateJson) (hr : (ratesInit i d j).isSome) :
    (∀ s, j.BEG = some s → (parseTime12 s).isSome) ∧
    (∀ s, j.END = some s → (parseTime12 s).isSome) := by
  simp only [ratesInit] at hr
  split at hr
  · simp at hr
  rename_i beg hbeg
  split at hr
  · simp at hr
  rename_i endt hendt
  refine ⟨fun s hs => ?_, fun s hs => ?_⟩
  · rw [hs] at hbeg
    simp only [optParse] at hbeg
    rcases Option.map_eq_some'.mp hbeg with ⟨v, hv, _⟩
    simp [hv]
  · rw [hs] at hendt
    simp only [optParse] at hendt
    rcases Option.map_eq_some'.mp hendt with ⟨v, hv, _⟩
    simp [hv]

theorem ophrsInit_times (i d : Int) (j : OphrsJson) (hr : (ophrsInit i d j).isSome) :
    (∀ s, j.BEG = some s → (parseTime12 s).isSome) ∧
    (∀ s, j.END = some s → (parseTime12 s).isSome) := by
  simp only [ophrsInit] at hr
  split at hr
  · simp at hr
  rename_i beg hbeg
  split at hr
  · simp at hr
  rename_i endt hendt
  refine ⟨fun s hs => ?_, fun s hs => ?_⟩
  · rw [hs] at hbeg
    simp only [optParse] at hbeg
    rcases Option.map_eq_some'.mp hbeg with ⟨v, hv, _⟩
    simp [hv]
  · rw [hs] at hendt
    simp only [optParse] at hendt
    rcases Option.map_eq_some'.mp hendt with ⟨v, hv, _⟩
    simp [hv]

theorem stageDimLoop_inits (d : Int) :
    ∀ (avls : List AvlJson) (known : List Int) (out : DimOut),
      stageDimLoop d known avls = some out →
      ∀ avl ∈ avls, ∃ i,
        (∀ j ∈ ratesEntries avl, (ratesInit i d j).isSome) ∧
        (∀ j ∈ ophrsEntries avl, (ophrsInit i d j).isSome) := by
  intro avls
  induction avls with
  | nil => intro known out _ avl hmem; exact absurd hmem (by simp)
  | cons a rest ih =>
    intro known out h avl hmem
    simp only [stageDimLoop] at h
    split at h
    · exact absurd h (by simp)
    rename_i i hi
    split at h
    · exact absurd h (by simp)
    rename_i p known₁ locs₁ hstep
    split at h
    · exact absurd h (by simp)
    rename_i rates₁ hrts
    split at h
    · exact absurd h (by simp)
    rename_i ophrs₁ hops
    split at h
    · exact absurd h (by simp)
    rename_i out' hrest
    rcases List.mem_cons.mp hmem with rfl | hmem'
    · refine ⟨i, fun j hj => ?_, fun j hj => ?_⟩
      · exact mapOpt_isSome_of_mem _ _ _ hrts j hj
      · exact mapOpt_isSome_of_mem _ _ _ hops j hj
    · exact ih known₁ out' hrest avl hmem'

theorem splitOnChar_ne_nil (c : Char) (l : List Char) : splitOnChar c l ≠ [] := by
  cases l with
  | nil => simp [splitOnChar]
  | cons a r =>
    simp only [splitOnChar]
    split
    · simp
    split <;> simp

theorem splitOnChar_of_not_mem (c : Char) (l : List Char) (h : c ∉ l) :
    splitOnChar c l = [l] := by
  induction l with
  | nil => rfl
  | cons a r ih =>
    have hac : ¬a = c := fun hac => h (hac ▸ List.mem_cons_self a r)
    have hr : c ∉ r := fun hm => h (List.mem_cons_of_mem a hm)
    simp only [splitOnChar, ih hr]
    rw [if_neg hac]

theorem splitOnChar_append_sep (c : Char) (l r : List Char) (h : c ∉ l) :
    splitOnChar c (l ++ c :: r) = l :: splitOnChar c r := by
  induction l with
  | nil =>
    rw [List.nil_append, splitOnChar]
    cases hsr : splitOnChar c r with
    | nil => exact absurd hsr (splitOnChar_ne_nil c r)
    | cons g gs => simp
  | cons a l ih =>
    have hac : ¬a = c := fun hac => h (hac ▸ List.mem_cons_self a l)
    have hl : c ∉ l := fun hm => h (List.mem_cons_of_mem a hm)
    rw [List.cons_append, splitOnChar, ih hl]
    simp [hac]

/-- Claim C1: on every successful cycle whose computed date bucket differs
from the tracker's stored `lastDate`, the collector sets `lastDate` to the
new bucket; it stages exactly one Location record per entry whose derived id
is not already known, adding the id to the known set as it goes (so the
staged ids are exactly `newIds` of the cycle's id list); and it stages one
Rates record per entry of each location's list-shaped rates list and one
Ophrs record per entry of its list-shaped hours list, regardless of whether
the location itself was new. -/
theorem collect_rollover_stages_dims
    (st : CollectorState) (data : Doc) (ts : String) (ut : PyDateTime)
    (avls : List AvlJson) (res : CycleResult) (ids : List Int)
    (hc : collectSFparkData st data = some res)
    (hs : data.STATUS = "SUCCESS")
    (hts : data.AVAILABILITY_UPDATED_TIMESTAMP = some ts)
    (hut : string_to_datetime ts = some ut)
    (havl : data.AVL = some avls)
    (hne : dateIdOf ut ≠ st.lastDate)
    (hids : mapOpt locIdOf avls = some ids) :
    res.state.lastDate = dateIdOf ut ∧
    res.staged.locations.map (fun r => r.id) = newIds st.storedLocations ids ∧
    res.staged.rates.length = (avls.map (fun a => (ratesEntries a).length)).sum ∧
    res.staged.ophrs.length = (avls.map (fun a => (ophrsEntries a).length)).sum := by
  rcases collect_success_cases st data ts ut avls res hc hs hts hut havl with
    ⟨hd, _⟩ | ⟨_, out, avail, hout, havail, hres⟩
  · exact absurd hd hne
  · subst hres
    obtain ⟨ids', hids', hlocs, hrates, hophrs⟩ :=
      stageDimLoop_spec (dateIdOf ut) avls st.storedLocations out hout
    rw [hids] at hids'
    injection hids' with h2
    subst h2
    exact ⟨rfl, hlocs, hrates, hophrs⟩

/-- Witness for C1: the first cycle on `docOk` from a fresh tracker rolls the
bucket to 20130704, stages the two new locations 930 and 20000, one rate row
and one hours row. -/
theorem collect_rollover_stages_dims_check :
    collectSFparkData st0 docOk = some cyc1 ∧
    (cyc1.state.lastDate = dateIdOf ut0 ∧
      cyc1.staged.locations.map (fun r => r.id) = newIds st0.storedLocations [930, 20000] ∧
      cyc1.staged.rates.length = ([avl1, avl2].map (fun a => (ratesEntries a).length)).sum ∧
      cyc1.staged.ophrs.length = ([avl1, avl2].map (fun a => (ophrsEntries a).length)).sum) :=
  ⟨by decide,
    collect_rollover_stages_dims st0 docOk "2013-07-04T10:00:00.52" ut0 [avl1, avl2] cyc1
      [930, 20000] (by decide) rfl rfl (by decide) rfl (by decide) (by decide)⟩

/-- Claim C2: on a successful cycle whose computed bucket equals the stored
`lastDate`, no Location, Rates, or Ophrs record is staged at all; and every
successful cycle, whatever the bucket comparison, stages exactly one
Availability record per entry of the response's `AVL` array. -/
theorem collect_same_bucket_only_avail
    (st : CollectorState) (data : Doc) (ts : String) (ut : PyDateTime)
    (avls : List AvlJson) (res : CycleResult)
    (hc : collectSFparkData st data = some res)
    (hs : data.STATUS = "SUCCESS")
    (hts : data.AVAILABILITY_UPDATED_TIMESTAMP = some ts)
    (hut : string_to_datetime ts = some ut)
    (havl : data.AVL = some avls) :
    (dateIdOf ut = st.lastDate →
      res.staged.locations = [] ∧ res.staged.rates = [] ∧ res.staged.ophrs = []) ∧
    res.staged.avail.length = avls.length := by
  rcases collect_success_cases st data ts ut avls res hc hs hts hut havl with
    ⟨hd, avail, havail, hres⟩ | ⟨hd, out, avail, hout, havail, hres⟩
  · subst hres
    exact ⟨fun _ => ⟨rfl, rfl, rfl⟩, stageAvailLoop_length _ _ _ _ havail⟩
  · subst hres
    exact ⟨fun h => absurd h hd, stageAvailLoop_length _ _ _ _ havail⟩

/-- Witness for C2: a cycle on `docOk` from a tracker already in bucket
20130704 stages nothing but the two availability rows. -/
theorem collect_same_bucket_only_avail_check :
    collectSFparkData stSame docOk = some cycSame ∧
    ((dateIdOf ut0 = stSame.lastDate →
        cycSame.staged.locations = [] ∧ cycSame.staged.rates = [] ∧ cycSame.staged.ophrs = []) ∧
      cycSame.staged.avail.length = [avl1, avl2].length) :=
  ⟨by decide,
    collect_same_bucket_only_avail stSame docOk "2013-07-04T10:00:00.52" ut0 [avl1, avl2]
      cycSame (by decide) rfl rfl (by decide) rfl⟩

/-- Claim C3: running the collector twice on the same success document stages
a Location record only on the first occurrence of each id — the second cycle
(sharing the first cycle's bucket) stages none, the first cycle's staged ids
are pairwise distinct, and none of them was already in the known set. -/
theorem collect_idempotent_locations
    (st : CollectorState) (data : Doc) (ts : String) (ut : PyDateTime)
    (avls : List AvlJson) (res₁ res₂ : CycleResult)
    (hs : data.STATUS = "SUCCESS")
    (hts : data.AVAILABILITY_UPDATED_TIMESTAMP = some ts)
    (hut : string_to_datetime ts = some ut)
    (havl : data.AVL = some avls)
    (h1 : collectSFparkData st data = some res₁)
    (h2 : collectSFparkData res₁.state data = some res₂) :
    res₂.staged.locations = [] ∧
    (res₁.staged.locations.map (fun r => r.id)).Nodup ∧
    (∀ r ∈ res₁.staged.locations, r.id ∉ st.storedLocations) := by
  have hcases1 := collect_success_cases st data ts ut avls res₁ h1 hs hts hut havl
  have hlast : res₁.state.lastDate = dateIdOf ut := by
    rcases hcases1 with ⟨hd, avail, havail, hres⟩ | ⟨hd, out, avail, hout, havail, hres⟩
    · subst hres; exact hd.symm
    · subst hres; rfl
  have hloc2 : res₂.staged.locations = [] := by
    rcases collect_success_cases res₁.state data ts ut avls res₂ h2 hs hts hut havl with
      ⟨hd, avail, havail, hres⟩ | ⟨hd, _, _, _, _, _⟩
    · subst hres; rfl
    · exact absurd hlast.symm hd
  refine ⟨hloc2, ?_⟩
  rcases hcases1 with ⟨hd, avail, havail, hres⟩ | ⟨hd, out, avail, hout, havail, hres⟩
  · subst hres
    exact ⟨List.nodup_nil, by simp⟩
  · subst hres
    obtain ⟨ids, hids, hlocs, _, _⟩ :=
      stageDimLoop_spec (dateIdOf ut) avls st.storedLocations out hout
    constructor
    · rw [show List.map (fun r => r.id)
            (CycleResult.mk ⟨out.known, dateIdOf ut⟩ ⟨out.locs, out.rates, out.ophrs, avail⟩
              []).staged.locations = out.locs.map (fun r => r.id) from rfl, hlocs]
      exact newIds_nodup _ _
    · intro r hr
      have hmem : r.id ∈ out.locs.map (fun r => r.id) := List.mem_map_of_mem _ hr
      rw [hlocs] at hmem
      exact newIds_not_mem _ _ _ hmem

/-- Witness for C3: the second identical cycle after `cyc1` stages no
Location rows, and `cyc1`'s staged location ids are distinct and new. -/
theorem collect_idempotent_locations_check :
    cyc2.staged.locations = [] ∧
    (cyc1.staged.locations.map (fun r => r.id)).Nodup ∧
    (∀ r ∈ cyc1.staged.locations, r.id ∉ st0.storedLocations) :=
  collect_idempotent_locations st0 docOk "2013-07-04T10:00:00.52" ut0 [avl1, avl2]
    cyc1 cyc2 rfl rfl (by decide) rfl (by decide) (by decide)

/-- Claim C4: the derived location id of an `AVL` entry is the `OSPID` field
parsed as an integer when the entry's `TYPE` is `"OFF"`, and otherwise the
`BFID` field parsed as an integer. -/
theorem locIdOf_off_on (avl : AvlJson) (t : String) (h : avl.TYPE = some t) :
    locIdOf avl = if t = "OFF" then avl.OSPID.bind pyInt else avl.BFID.bind pyInt := by
  simp only [locIdOf, h]
  by_cases ht : t = "OFF"
  · rw [if_pos ht, if_pos ht]
    cases hos : avl.OSPID <;> simp [hos]
  · rw [if_neg ht, if_neg ht]
    cases hbf : avl.BFID <;> simp [hbf]

/-- Witness for C4: the sample off-street entry derives its id from `OSPID`.
-/
theorem locIdOf_off_on_check :
    avl1.TYPE = some "OFF" ∧
    locIdOf avl1 =
      if ("OFF" : String) = "OFF" then avl1.OSPID.bind pyInt else avl1.BFID.bind pyInt :=
  ⟨rfl, locIdOf_off_on avl1 "OFF" rfl⟩

/-- Claim C5: the top-level timestamp is parsed by truncating at the first
`'.'` and parsing the remainder against the fixed `YYYY-MM-DDTHH:MM:SS`
pattern, the date bucket is `year*10000 + month*100 + day`, and
`2013-07-04T10:00:00`, with or without a fractional suffix, yields bucket
`20130704`. -/
theorem bucket_truncation_and_arith :
    (∀ ut : PyDateTime, dateIdOf ut =
        10000 * (ut.year : Int) + 100 * (ut.month : Int) + (ut.day : Int)) ∧
    (∀ s : String, '.' ∉ s.toList → string_to_datetime s = strptimeISO s.toList) ∧
    (∀ s t : String, '.' ∉ s.toList →
        string_to_datetime (s ++ "." ++ t) = strptimeISO s.toList) ∧
    (string_to_datetime "2013-07-04T10:00:00").map dateIdOf = some 20130704 ∧
    (string_to_datetime "2013-07-04T10:00:00.592").map dateIdOf = some 20130704 := by
  refine ⟨fun ut => rfl, ?_, ?_, by decide, by decide⟩
  · intro s hdot
    unfold string_to_datetime
    rw [splitOnChar_of_not_mem _ _ hdot]
    rfl
  · intro s t hdot
    unfold string_to_datetime
    have happ : (s ++ "." ++ t).toList = s.toList ++ '.' :: t.toList := by
      simp
    rw [happ, splitOnChar_append_sep _ _ _ hdot]
    rfl

/-- Witness for C5: truncation applied at a concrete timestamp with a
fractional suffix. -/
theorem bucket_truncation_and_arith_check :
    '.' ∉ ("2013-07-04T10:00:00" : String).toList ∧
    string_to_datetime ("2013-07-04T10:00:00" ++ "." ++ "592") =
      strptimeISO ("2013-07-04T10:00:00" : String).toList :=
  ⟨by decide, bucket_truncation_and_arith.2.2.1 "2013-07-04T10:00:00" "592" (by decide)⟩

/-- Claim C8: on a document whose status is not `"SUCCESS"` and which
carries an error code and message, the cycle stages nothing at all, prints
the provider's error code and message, leaves the tracker state untouched,
and returns normally (no exception), so the scheduler's next tick is
unaffected. -/
theorem collect_error_status
    (st : CollectorState) (data : Doc) (ec m : String)
    (hs : data.STATUS ≠ "SUCCESS")
    (hec : data.ERROR_CODE = some ec)
    (hm : data.MESSAGE = some m) :
    collectSFparkData st data = some ⟨st, ⟨[], [], [], []⟩, [ec ++ " " ++ m]⟩ := by
  simp only [collectSFparkData, hec, hm]
  rw [if_neg hs]

/-- Witness for C8: the sample error document stages nothing and logs
`AUTH01 bad api key`. -/
theorem collect_error_status_check :
    docErr.STATUS ≠ "SUCCESS" ∧
    collectSFparkData st0 docErr =
      some ⟨st0, ⟨[], [], [], []⟩, ["AUTH01" ++ " " ++ "bad api key"]⟩ :=
  ⟨by decide, collect_error_status st0 docErr "AUTH01" "bad api key" (by decide) rfl rfl⟩

/-- Claim C9: the source guards with `len(sys.argv) < 1`, which never holds
for a real invocation (argv always contains at least the program name), so a
run without the connection-string argument raises an uncaught `IndexError`
at `sys.argv[1]` instead of printing the usage text; the usage/exit-2 path is
reachable only with an empty argv. -/
theorem mainStart_missing_arg :
    mainStart ["sfdata_collector.py"] = MainStart.indexError ∧
    mainStart [] = MainStart.usageExit 2 ∧
    mainStart ["sfdata_collector.py", "postgresql://user:pw@localhost/sfdata"] =
      MainStart.proceed "postgresql://user:pw@localhost/sfdata" := by
  refine ⟨rfl, rfl, rfl⟩

/-- Counterexample to C7 as stated: `docBadTime`'s first rate entry has a
malformed begin time while its second entry is perfectly well-formed, yet the
whole cycle raises and commits nothing — the remaining candidates (including
every availability row) are not staged, so the failure is not confined to the
single bad record. -/
theorem malformed_time_aborts_counterexample :
    collectSFparkData st0 docBadTime = none ∧ (parseTime12 "8:00 AM").isSome := by
  decide

/-- Claim C7 as amended: a malformed 12-hour begin/end time in any rate or
operating-hours entry aborts the entire cycle rather than being confined to
that record — equivalently, any rollover cycle that completes had every such
time string parse successfully. -/
theorem collect_cycle_time_strings_parse
    (st : CollectorState) (data : Doc) (ts : String) (ut : PyDateTime)
    (avls : List AvlJson) (res : CycleResult)
    (hc : collectSFparkData st data = some res)
    (hs : data.STATUS = "SUCCESS")
    (hts : data.AVAILABILITY_UPDATED_TIMESTAMP = some ts)
    (hut : string_to_datetime ts = some ut)
    (havl : data.AVL = some avls)
    (hne : dateIdOf ut ≠ st.lastDate) :
    ∀ avl ∈ avls,
      (∀ j ∈ ratesEntries avl,
        (∀ s, j.BEG = some s → (parseTime12 s).isSome) ∧
        (∀ s, j.END = some s → (parseTime12 s).isSome)) ∧
      (∀ j ∈ ophrsEntries avl,
        (∀ s, j.BEG = some s → (parseTime12 s).isSome) ∧
        (∀ s, j.END = some s → (parseTime12 s).isSome)) := by
  rcases collect_success_cases st data ts ut avls res hc hs hts hut havl with
    ⟨hd, _⟩ | ⟨_, out, avail, hout, _, _⟩
  · exact absurd hd hne
  · intro avl hmem
    obtain ⟨i, hr, ho⟩ :=
      stageDimLoop_inits (dateIdOf ut) avls st.storedLocations out hout avl hmem
    exact ⟨fun j hj => ratesInit_times i (dateIdOf ut) j (hr j hj),
           fun j hj => ophrsInit_times i (dateIdOf ut) j (ho j hj)⟩

/-- Witness for the amended C7: the completed first cycle on `docOk` implies
its concrete rate begin time and hours end time parse. -/
theorem collect_cycle_time_strings_parse_check :
    (parseTime12 "8:00 AM").isSome ∧ (parseTime12 "10:00 PM").isSome :=
  ⟨((collect_cycle_time_strings_parse st0 docOk "2013-07-04T10:00:00.52" ut0 [avl1, avl2]
        cyc1 (by decide) rfl rfl (by decide) rfl (by decide) avl1 (by decide)).1
      rate1 (by decide)).1 "8:00 AM" rfl,
   ((collect_cycle_time_strings_parse st0 docOk "2013-07-04T10:00:00.52" ut0 [avl1, avl2]
        cyc1 (by decide) rfl rfl (by decide) rfl (by decide) avl1 (by decide)).2
      op1 (by decide)).2 "10:00 PM" rfl⟩

/-- Claim C6: for an entry carrying a coordinate string, point count 1 reads
index 0 as `lon1` and index 1 as `lat1` with no second pair; point count 2
additionally reads indices 2 and 3 as `lon2`/`lat2` (longitude first in each
pair); any other point count sets no coordinate field at all. -/
theorem locationInit_coords
    (i : Int) (json : AvlJson) (s : String) (r : SFparkLocationRecord)
    (hloc : json.LOC = some s)
    (h : locationInit i json = some r) :
    (r.pts = some 1 →
      r.lon1 = ((splitOnChar ',' s.toList).get? 0).bind pyFloatCore ∧
      r.lat1 = ((splitOnChar ',' s.toList).get? 1).bind pyFloatCore ∧
      r.lon2 = none ∧ r.lat2 = none) ∧
    (r.pts = some 2 →
      r.lon1 = ((splitOnChar ',' s.toList).get? 0).bind pyFloatCore ∧
      r.lat1 = ((splitOnChar ',' s.toList).get? 1).bind pyFloatCore ∧
      r.lon2 = ((splitOnChar ',' s.toList).get? 2).bind pyFloatCore ∧
      r.lat2 = ((splitOnChar ',' s.toList).get? 3).bind pyFloatCore) ∧
    ((∀ n : Int, r.pts = some n → n ≠ 1 ∧ n ≠ 2) →
      r.lon1 = none ∧ r.lat1 = none ∧ r.lon2 = none ∧ r.lat2 = none) := by
  simp only [locationInit] at h
  split at h
  · exact absurd h (by simp)
  rename_i ospid hospid
  split at h
  · exact absurd h (by simp)
  rename_i bfid hbfid
  split at h
  · exact absurd h (by simp)
  rename_i pts hpts
  simp only [hloc] at h
  by_cases h1 : pts = some 1
  · rw [if_pos h1] at h
    split at h
    · rename_i lat1 lon1 hlat1 hlon1
      injection h with h2
      subst h2
      refine ⟨fun _ => ⟨hlon1.symm, hlat1.symm, rfl, rfl⟩, fun hp => ?_, fun hother => ?_⟩
      · exact absurd (h1.symm.trans hp) (by simp)
      · exact absurd rfl (hother 1 h1).1
    · exact absurd h (by simp)
  · by_cases h2 : pts = some 2
    · rw [if_neg h1, if_pos h2] at h
      split at h
      · rename_i lat1 lon1 lat2 lon2 hlat1 hlon1 hlat2 hlon2
        injection h with h3
        subst h3
        refine ⟨fun hp => ?_, fun _ => ⟨hlon1.symm, hlat1.symm, hlon2.symm, hlat2.symm⟩,
          fun hother => ?_⟩
        · exact absurd (h2.symm.trans hp) (by simp)
        · exact absurd rfl (hother 2 h2).2
      · exact absurd h (by simp)
    · rw [if_neg h1, if_neg h2] at h
      injection h with h3
      subst h3
      exact ⟨fun hp => absurd hp h1, fun hp => absurd hp h2, fun _ => ⟨rfl, rfl, rfl, rfl⟩⟩

/-- Witness for C6: the sample on-street entry (point count 2) yields the
four coordinates from indices 0–3, longitude first. -/
theorem locationInit_coords_check :
    loc2.lon1 = ((splitOnChar ',' ("-122.4,37.7,-122.5,37.8" : String).toList).get? 0).bind pyFloatCore ∧
    loc2.lat1 = ((splitOnChar ',' ("-122.4,37.7,-122.5,37.8" : String).toList).get? 1).bind pyFloatCore ∧
    loc2.lon2 = ((splitOnChar ',' ("-122.4,37.7,-122.5,37.8" : String).toList).get? 2).bind pyFloatCore ∧
    loc2.lat2 = ((splitOnChar ',' ("-122.4,37.7,-122.5,37.8" : String).toList).get? 3).bind pyFloatCore :=
  (locationInit_coords 20000 avl2 "-122.4,37.7,-122.5,37.8" loc2 rfl (by decide)).2.1 (by decide)

theorem get?_isSome_of_bind {α β : Type} (o : Option α) (f : α → Option β)
    (h : (o.bind f).isSome) : o.isSome := by
  cases o
  · simp at h
  · simp

theorem lt_length_of_get?_bind_isSome {α β : Type} (l : List α) (n : Nat) (f : α → Option β)
    (h : ((l.get? n).bind f).isSome) : n < l.length := by
  by_contra hnot
  have hnone : l.get? n = none := List.get?_eq_none.mpr (Nat.le_of_not_lt hnot)
  rw [hnone] at h
  simp at h

theorem bind_of_optParse {α : Type} (f : String → Option α) (o : Option String) (b : Option α)
    (h : optParse f o = some b) : o.bind f = b := by
  cases o with
  | none =>
    simp only [optParse, Option.some.injEq] at h
    subst h
    rfl
  | some v =>
    simp only [optParse] at h
    rcases Option.map_eq_some'.mp h with ⟨c, hc, hcb⟩
    rw [show Option.bind (some v) f = f v from rfl, hc]
    exact hcb

theorem optParse_isSome_of_okParse {α : Type} (f : String → Option α) (o : Option String)
    (h : okParse f o) : (optParse f o).isSome := by
  cases o with
  | none => simp [optParse]
  | some v =>
    have hv := h v rfl
    rcases Option.isSome_iff_exists.mp hv with ⟨b, hb⟩
    simp [optParse, hb]

/-- Claim C10: with a coordinate string present and the other numeric fields
readable, the constructor succeeds for point count 1 exactly when the string
splits by comma into at least 2 components whose first two parse as floats,
and for point count 2 exactly when it splits into at least 4 components
whose first four parse as floats; for an absent or any other point-count
value the coordinate string is never parsed, so it cannot affect whether the
constructor fails. -/
theorem locationInit_partiality
    (i : Int) (json : AvlJson) (s : String)
    (hloc : json.LOC = some s) :
    ((json.PTS.bind pyInt = some 1 ∧ okParse pyInt json.OSPID ∧ okParse pyInt json.BFID) →
      ((locationInit i json).isSome ↔
        2 ≤ (splitOnChar ',' s.toList).length ∧
        (((splitOnChar ',' s.toList).get? 0).bind pyFloatCore).isSome ∧
        (((splitOnChar ',' s.toList).get? 1).bind pyFloatCore).isSome)) ∧
    ((json.PTS.bind pyInt = some 2 ∧ okParse pyInt json.OSPID ∧ okParse pyInt json.BFID) →
      ((locationInit i json).isSome ↔
        4 ≤ (splitOnChar ',' s.toList).length ∧
        (((splitOnChar ',' s.toList).get? 0).bind pyFloatCore).isSome ∧
        (((splitOnChar ',' s.toList).get? 1).bind pyFloatCore).isSome ∧
        (((splitOnChar ',' s.toList).get? 2).bind pyFloatCore).isSome ∧
        (((splitOnChar ',' s.toList).get? 3).bind pyFloatCore).isSome)) ∧
    ((json.PTS.bind pyInt ≠ some 1 ∧ json.PTS.bind pyInt ≠ some 2) →
      (locationInit i json).isSome = (locationInit i { json with LOC := none }).isSome) := by
  refine ⟨?_, ?_, ?_⟩
  · rintro ⟨hptsbind, hok1, hok2⟩
    obtain ⟨ospid, hOSP⟩ :=
      Option.isSome_iff_exists.mp (optParse_isSome_of_okParse pyInt json.OSPID hok1)
    obtain ⟨bfid, hBF⟩ :=
      Option.isSome_iff_exists.mp (optParse_isSome_of_okParse pyInt json.BFID hok2)
    have hPTS : optParse pyInt json.PTS = some (some 1) := by
      cases hp : json.PTS with
      | none => rw [hp] at hptsbind; simp at hptsbind
      | some p =>
        rw [hp] at hptsbind
        simp only [Option.some_bind] at hptsbind
        simp [optParse, hptsbind]
    have hiff : (locationInit i json).isSome ↔
        (((splitOnChar ',' s.toList).get? 1).bind pyFloatCore).isSome ∧
        (((splitOnChar ',' s.toList).get? 0).bind pyFloatCore).isSome := by
      simp only [locationInit, hOSP, hBF, hPTS, hloc, if_true]
      cases hb1 : ((splitOnChar ',' s.toList).get? 1).bind pyFloatCore <;>
        cases hb0 : ((splitOnChar ',' s.toList).get? 0).bind pyFloatCore <;> simp
    constructor
    · intro hsome
      obtain ⟨hb1, hb0⟩ := hiff.mp hsome
      exact ⟨lt_length_of_get?_bind_isSome _ 1 _ hb1, hb0, hb1⟩
    · rintro ⟨_, hb0, hb1⟩
      exact hiff.mpr ⟨hb1, hb0⟩
  · rintro ⟨hptsbind, hok1, hok2⟩
    obtain ⟨ospid, hOSP⟩ :=
      Option.isSome_iff_exists.mp (optParse_isSome_of_okParse pyInt json.OSPID hok1)
    obtain ⟨bfid, hBF⟩ :=
      Option.isSome_iff_exists.mp (optParse_isSome_of_okParse pyInt json.BFID hok2)
    have hPTS : optParse pyInt json.PTS = some (some 2) := by
      cases hp : json.PTS with
      | none => rw [hp] at hptsbind; simp at hptsbind
      | some p =>
        rw [hp] at hptsbind
        simp only [Option.some_bind] at hptsbind
        simp [optParse, hptsbind]
    have hiff : (locationInit i json).isSome ↔
        (((splitOnChar ',' s.toList).get? 1).bind pyFloatCore).isSome ∧
        (((splitOnChar ',' s.toList).get? 0).bind pyFloatCore).isSome ∧
        (((splitOnChar ',' s.toList).get? 3).bind pyFloatCore).isSome ∧
        (((splitOnChar ',' s.toList).get? 2).bind pyFloatCore).isSome := by
      simp only [locationInit, hOSP, hBF, hPTS, hloc, if_true]
      cases hb1 : ((splitOnChar ',' s.toList).get? 1).bind pyFloatCore <;>
        cases hb0 : ((splitOnChar ',' s.toList).get? 0).bind pyFloatCore <;>
        cases hb3 : ((splitOnChar ',' s.toList).get? 3).bind pyFloatCore <;>
        cases hb2 : ((splitOnChar ',' s.toList).get? 2).bind pyFloatCore <;> simp
    constructor
    · intro hsome
      obtain ⟨hb1, hb0, hb3, hb2⟩ := hiff.mp hsome
      exact ⟨lt_length_of_get?_bind_isSome _ 3 _ hb3, hb0, hb1, hb2, hb3⟩
    · rintro ⟨_, hb0, hb1, hb2, hb3⟩
      exact hiff.mpr ⟨hb1, hb0, hb3, hb2⟩
  · rintro ⟨hne1, hne2⟩
    cases hOSP : optParse pyInt json.OSPID with
    | none => simp [locationInit, hOSP]
    | some ospid =>
      cases hBF : optParse pyInt json.BFID with
      | none => simp [locationInit, hOSP, hBF]
      | some bfid =>
        cases hPTS : optParse pyInt json.PTS with
        | none => simp [locationInit, hOSP, hBF, hPTS]
        | some pts =>
          have hp1 : ¬pts = some 1 := fun hc =>
            hne1 (by rw [bind_of_optParse pyInt json.PTS pts hPTS, hc])
          have hp2 : ¬pts = some 2 := fun hc =>
            hne2 (by rw [bind_of_optParse pyInt json.PTS pts hPTS, hc])
          simp [locationInit, hOSP, hBF, hPTS, hloc, hp1, hp2]

/-- Witness for C10: the sample on-street entry (point count 2) succeeds
exactly because its coordinate string has four float components. -/
theorem locationInit_partiality_check :
    (locationInit 20000 avl2).isSome ↔
      4 ≤ (splitOnChar ',' ("-122.4,37.7,-122.5,37.8" : String).toList).length ∧
      (((splitOnChar ',' ("-122.4,37.7,-122.5,37.8" : String).toList).get? 0).bind pyFloatCore).isSome ∧
      (((splitOnChar ',' ("-122.4,37.7,-122.5,37.8" : String).toList).get? 1).bind pyFloatCore).isSome ∧
      (((splitOnChar ',' ("-122.4,37.7,-122.5,37.8" : String).toList).get? 2).bind pyFloatCore).isSome ∧
      (((splitOnChar ',' ("-122.4,37.7,-122.5,37.8" : String).toList).get? 3).bind pyFloatCore).isSome :=
  (locationInit_partiality 20000 avl2 "-122.4,37.7,-122.5,37.8" rfl).2.1
    ⟨by decide,
      fun v hv => by
        injection hv
      ,
      fun v hv => by
        rw [show avl2.BFID = some "20000" from rfl] at hv
        injection hv with hv
        subst hv
        decide⟩

end SFData
